/-
Verification of the Vault Shop order-processing backend (src/WEB/app.py)
against its natural-language specification.

The Python source is shallowly embedded: each Flask route handler becomes a
pure Lean function from its request data and the current database state to a
response together with the new state and the list of outbound side effects
(Telegram messages).  External collaborators (the HMAC-SHA512 primitive, the
payment-processor invoice call, the wall clock) are passed in as explicit
arguments, mirroring the fact that they are off-system in the source.
Fallible code paths (an unhandled Python exception escaping a route) are
modelled with `Except`.
-/
import Mathlib

namespace VaultShop

/-! ## Data model

`products` and `orders` are the two database tables (src/WEB/app.py uses
PostgreSQL through parameterized queries).  A table is a list of rows;
`fetchone` is the head of the filtered list, SQL `UPDATE ... WHERE` maps over
all rows, and `rowcount` is the number of rows matching the WHERE clause. -/

/-- A row of the `products` table (columns used by the handlers:
id, name, price, description, image_url). -/
structure Product where
  id : Nat
  name : String
  price : Rat
  description : String
  image_url : String
deriving Repr, DecidableEq

/-- Order status values stored in `orders.order_status`.  The column default
is `pending`; the handlers write `paid` (ipn) and `cancelled` (cancel_order). -/
inductive OrderStatus where
  | pending
  | paid
  | cancelled
deriving Repr, DecidableEq

instance : BEq OrderStatus := ⟨fun a b => decide (a = b)⟩

instance : LawfulBEq OrderStatus where
  eq_of_beq h := of_decide_eq_true h
  rfl := decide_eq_true rfl

/-- A row of the `orders` table.  `user_identifier` is NULL (`none`) for
anonymous web orders and the Telegram user id for bot orders; `paid_at` is
NULL until the IPN handler stamps it (timestamps are abstracted as `Nat`). -/
structure Order where
  product_id : Nat
  total_amount : Rat
  user_identifier : Option String
  order_id : String
  payment_id : String
  order_status : OrderStatus
  paid_at : Option Nat
deriving Repr, DecidableEq

/-- An outbound Telegram message sent by the IPN handler: the delivery-method
choice keyboard.  `chat_id` is the value `user_id[0]` passed to
`bot.send_message` (it can be `none`: the code guards on the truthiness of the
fetched tuple, not of the identifier inside it). -/
structure Notification where
  chat_id : Option String
  order_id : String
deriving Repr, DecidableEq

/-- Response bodies produced by the JSON routes. -/
inductive Resp where
  /-- `jsonify({'error': msg})` -/
  | jsonError (msg : String)
  /-- `jsonify({'success': True})` -/
  | jsonSuccess
  /-- `jsonify({'order_id': oid, 'payment_url': url})` -/
  | jsonOrderCreated (oid : String) (url : String)
  /-- a plain-text response such as `'OK'` or `'Invalid signature'` -/
  | text (t : String)
deriving Repr, DecidableEq

/-! ## Order identifier generation (src/WEB/app.py lines 60-65)

`generate_order_id(prefix)` draws six characters from the 36-character
alphabet with `secrets.choice` and appends the current date formatted
`%d%m%y`.  The six random draws and the clock are external inputs, so they
are arguments here: the six chosen characters and the creation date's day,
month and year. -/

/-- The alphabet `'ABCDEFGHIJKLMNOPQRSTUVWXYZ0123456789'` that
`secrets.choice` draws from. -/
def charset : List Char :=
  "ABCDEFGHIJKLMNOPQRSTUVWXYZ0123456789".toList

/-- The decimal digit character for `n < 10` (codepoint 48 + n). -/
def digitChar (n : Nat) : Char :=
  Char.ofNat (48 + n)

/-- Two-digit zero-padded decimal rendering of `n < 100`, as produced by the
strftime fields `%d`, `%m` and `%y` for in-range values. -/
def pad2 (n : Nat) : List Char :=
  [digitChar ((n / 10) % 10), digitChar (n % 10)]

/-- `datetime.datetime.now().strftime('%d%m%y')`: zero-padded day, month and
two-digit year of the creation date. -/
def date_part (day month year : Nat) : List Char :=
  pad2 day ++ pad2 month ++ pad2 (year % 100)

/-- `generate_order_id(prefix)` with the six `secrets.choice` draws and the
current date made explicit: `f"{prefix}-{random_part}-{date_part}"`. -/
def generate_order_id (pfx : String) (draws : List Char)
    (day month year : Nat) : String :=
  pfx ++ "-" ++ String.mk draws ++ "-" ++ String.mk (date_part day month year)

/-- `[A-Z0-9]` character class of the spec's identifier regex. -/
def isUpperAlnum (c : Char) : Bool :=
  ('A' ≤ c && c ≤ 'Z') || ('0' ≤ c && c ≤ '9')

/-- Decides the spec's identifier format regex
`^[BW]-[A-Z0-9]\x7b6\x7d-\d\x7b6\x7d$`. -/
def matches_order_id_format (s : String) : Bool :=
  match s.data with
  | [p, h1, r1, r2, r3, r4, r5, r6, h2, d1, d2, d3, d4, d5, d6] =>
      (p == 'B' || p == 'W') && h1 == '-' && h2 == '-'
        && isUpperAlnum r1 && isUpperAlnum r2 && isUpperAlnum r3
        && isUpperAlnum r4 && isUpperAlnum r5 && isUpperAlnum r6
        && d1.isDigit && d2.isDigit && d3.isDigit
        && d4.isDigit && d5.isDigit && d6.isDigit
  | _ => false

/-- The date segment of a generated identifier: the characters after the
second hyphen (beyond position 8 of the 15-character identifier). -/
def date_segment (s : String) : List Char :=
  s.data.drop 9

/-! ## IPN signature validation (src/WEB/app.py lines 83-89)

`validate_ipn` reads the `x-nowpayments-sig` header (which may be absent,
hence `Option String`), computes the hex HMAC-SHA512 of the raw body under
the shared secret, and compares with `hmac.compare_digest`.  The HMAC
primitive itself is library code outside this repository, so the handlers
take it as a function argument `hmacHex : secret → body → hex digest`. -/

/-- Python's `hmac.compare_digest(a, b)`: constant-time equality on two
strings; raises `TypeError` when the first argument is `None` (a missing
header).  The constant-time execution itself is a timing property with no
functional content; functionally the primitive decides equality. -/
def hmac_compare_digest (a : Option String) (b : String) : Except String Bool :=
  match a with
  | none => .error "TypeError"
  | some s => .ok (s == b)

/-- `validate_ipn(request)`: `sig` is the `x-nowpayments-sig` header and
`raw_body` the raw request body (`request.get_data()`). -/
def validate_ipn (hmacHex : String → String → String) (secret : String)
    (sig : Option String) (raw_body : String) : Except String Bool :=
  hmac_compare_digest sig (hmacHex secret raw_body)

/-! ## The /ipn route handler (src/WEB/app.py lines 370-394) -/

/-- The parts of a POST /ipn request the handler consumes: the signature
header, the raw body it is checked against, and the two JSON fields read
from `request.get_json()` (`data.get('payment_status')` and
`data['order_id']`).  The handler never relates the parsed fields back to
the raw bytes, so neither does the model. -/
structure IpnRequest where
  sig : Option String
  raw_body : String
  payment_status : Option String
  order_id : Option String
deriving Repr, DecidableEq

/-- Result of a completed (non-raising) /ipn invocation: HTTP status and
body, the orders table afterwards, and the Telegram messages sent. -/
structure IpnOutcome where
  status : Nat
  body : Resp
  orders : List Order
  notifications : List Notification
deriving Repr, DecidableEq

/-- The `/ipn` route body.  `now` is `CURRENT_TIMESTAMP`.  The route has no
try/except, so a `TypeError` from `compare_digest` (missing header) or a
`KeyError` from `data['order_id']` escapes as `.error`.  The UPDATE sets
every row matching `order_id` to paid — there is no
`AND order_status = 'pending'` guard in the SQL.  The subsequent SELECT
fetches `user_identifier` of the first matching row; the truthiness test
`if user_id:` is on the fetched one-element tuple, so a message is sent
whenever a row exists, even when the identifier inside is NULL. -/
def ipn (hmacHex : String → String → String) (secret : String)
    (req : IpnRequest) (orders : List Order) (now : Nat) :
    Except String IpnOutcome :=
  match validate_ipn hmacHex secret req.sig req.raw_body with
  | .error e => .error e
  | .ok false => .ok ⟨400, .text "Invalid signature", orders, []⟩
  | .ok true =>
    if req.payment_status == some "finished" then
      match req.order_id with
      | none => .error "KeyError"
      | some oid =>
        let orders' := orders.map fun o =>
          if o.order_id == oid then
            { o with order_status := .paid, paid_at := some now }
          else o
        let user_id := (orders'.filter fun o => o.order_id == oid).head?
        let notifications := match user_id with
          | some row => [⟨row.user_identifier, oid⟩]
          | none => []
        .ok ⟨200, .text "OK", orders', notifications⟩
    else
      .ok ⟨200, .text "OK", orders, []⟩

/-! ## The /cancel-order route handler (src/WEB/app.py lines 256-273) -/

/-- `/cancel-order/<order_id>`: a single conditional UPDATE
(`SET order_status = 'cancelled' WHERE order_id = %s AND
order_status = 'pending'`); `rowcount > 0` decides between
200 `{'success': True}` and 404. -/
def cancel_order (oid : String) (orders : List Order) :
    (Nat × Resp) × List Order :=
  let updated := orders.map fun o =>
    if o.order_id == oid && o.order_status == OrderStatus.pending then
      { o with order_status := .cancelled }
    else o
  let rowcount :=
    (orders.filter fun o =>
      o.order_id == oid && o.order_status == OrderStatus.pending).length
  if rowcount > 0 then
    ((200, .jsonSuccess), updated)
  else
    ((404, .jsonError "Order not found or not cancellable"), orders)

/-! ## The /create-order route handler (src/WEB/app.py lines 204-236)

`request.get_json()` may yield no usable body (`not data`) or a body without
`product_id`; both give 400.  The freshly generated order identifier and the
external invoice call's result are inputs: `invoice_url` is
`invoice.get('invoice_url')` when the NOWPayments response carries one and
`none` when the call fails or the field is absent. -/

/-- A new `orders` row as INSERTed by /create-order: no `user_identifier`
(anonymous web order), empty `payment_id`, and the column defaults
`order_status = 'pending'`, `paid_at` NULL. -/
def new_web_order (product_id : Nat) (price : Rat) (oid : String) : Order :=
  { product_id := product_id
    total_amount := price
    user_identifier := none
    order_id := oid
    payment_id := ""
    order_status := .pending
    paid_at := none }

/-- `/create-order`: `body = none` models a missing/empty JSON body,
`body = some none` a JSON body without `product_id`. -/
def create_order (body : Option (Option Nat)) (oid : String)
    (invoice_url : Option String) (products : List Product)
    (orders : List Order) : (Nat × Resp) × List Order :=
  match body with
  | none => ((400, .jsonError "Missing product_id"), orders)
  | some none => ((400, .jsonError "Missing product_id"), orders)
  | some (some product_id) =>
    match (products.filter fun p => p.id == product_id).head? with
    | none => ((404, .jsonError "Product not found"), orders)
    | some product =>
      let orders' := orders ++ [new_web_order product_id product.price oid]
      match invoice_url with
      | none => ((500, .jsonError "Failed to create invoice"), orders')
      | some url => ((200, .jsonOrderCreated oid url), orders')

/-! ## The /submit-delivery route handler (src/WEB/app.py lines 291-306)

The handler indexes `data['order_id']`, `data['method']`, `data['details']`
inside its try block; a missing key raises `KeyError`, which the blanket
`except` turns into a 500 `{'error': 'Internal server error'}`. -/

/-- The message relayed to the operator channel on success. -/
def delivery_message (oid method details : String) : String :=
  "New Order: " ++ oid ++ "\nDelivery: " ++ method ++ " (" ++ details ++ ")"

/-- `/submit-delivery`: returns the response and the admin-channel messages
sent. -/
def submit_delivery (order_id method details : Option String) :
    (Nat × Resp) × List String :=
  match order_id, method, details with
  | some oid, some m, some d =>
      ((200, .jsonSuccess), [delivery_message oid m d])
  | _, _, _ =>
      ((500, .jsonError "Internal server error"), [])

/-! ## The admin add-product form (src/WEB/app.py lines 52-58, 336-353)

`ProductForm` validates with WTForms: `DataRequired()` fails on falsy data
(`None`, the empty/whitespace string, and — for the `FloatField` — the float
`0.0`), and `NumberRange(min=0)` fails on `None` or data below the minimum.
`form.validate_on_submit()` gates the INSERT. -/

/-- A submitted add-product form; `none` is a missing/unparseable field. -/
structure ProductSubmission where
  name : Option String
  price : Option Rat
  description : Option String
  image_url : Option String
deriving Repr, DecidableEq

/-- Python's `str.strip()`: the string with leading and trailing whitespace
removed. -/
def strip (s : String) : String :=
  String.mk
    (((s.data.dropWhile Char.isWhitespace).reverse.dropWhile
        Char.isWhitespace).reverse)

/-- WTForms `DataRequired()` on a string field: fails when the data is
missing, empty, or whitespace-only (`not field.data.strip()`). -/
def data_required_str (d : Option String) : Bool :=
  match d with
  | none => false
  | some s => !(strip s == "")

/-- WTForms `DataRequired()` on the `FloatField`: fails when the data is
missing or falsy — and the float `0.0` is falsy in Python. -/
def data_required_float (d : Option Rat) : Bool :=
  match d with
  | none => false
  | some x => !(x == 0)

/-- WTForms `NumberRange(min=0)`: fails when the data is missing or below
the minimum. -/
def number_range_min0 (d : Option Rat) : Bool :=
  match d with
  | none => false
  | some x => decide ((0 : Rat) ≤ x)

/-- `ProductForm` validation: name `DataRequired`, price `DataRequired` then
`NumberRange(min=0)`, description `DataRequired`; `image_url` has no
validators. -/
def product_form_validate (s : ProductSubmission) : Bool :=
  data_required_str s.name
    && (data_required_float s.price && number_range_min0 s.price)
    && data_required_str s.description

/-- The product row INSERTed by `/admin/add` from a valid submission
(validated fields are present, so `getD` defaults are never reached). -/
def product_of_submission (id : Nat) (s : ProductSubmission) : Product :=
  { id := id
    name := s.name.getD ""
    price := s.price.getD 0
    description := s.description.getD ""
    image_url := s.image_url.getD "" }

/-- `/admin/add`: on `form.validate_on_submit()` INSERT the product and
redirect (`true`); otherwise re-render the form (`false`) with no INSERT.
`new_id` is the id the database assigns to the inserted row. -/
def add_product (s : ProductSubmission) (new_id : Nat)
    (products : List Product) : Bool × List Product :=
  if product_form_validate s then
    (true, products ++ [product_of_submission new_id s])
  else
    (false, products)

/-! ## Concrete instantiation helpers

The handlers are parametric in the external HMAC primitive; concrete
evaluations instantiate it with an arbitrary injective-enough stand-in. -/

/-- A concrete stand-in for the hex HMAC-SHA512 primitive, used only to
evaluate the handlers on concrete inputs (the theorems hold for every
choice of primitive). -/
def test_hmac (secret body : String) : String :=
  secret ++ "/" ++ body

/-- Whether an HTTP status code lies in the 4xx class. -/
def is_4xx (status : Nat) : Bool :=
  400 ≤ status && status < 500

/-- A concrete bot order in status `cancelled` (buyer identifier present). -/
def cancelled_order : Order :=
  { product_id := 1
    total_amount := 5
    user_identifier := some "42"
    order_id := "B-ABC123-010126"
    payment_id := ""
    order_status := .cancelled
    paid_at := none }

/-- A concrete bot order in status `pending` (buyer identifier present). -/
def bot_order : Order :=
  { product_id := 2
    total_amount := 10
    user_identifier := some "777"
    order_id := "B-XYZ789-020226"
    payment_id := ""
    order_status := .pending
    paid_at := none }

/-- `bot_order` after the IPN handler marks it paid at time `t`. -/
def bot_order_paid (t : Nat) : Order :=
  { bot_order with order_status := .paid, paid_at := some t }

/-- A correctly signed `finished` IPN request for `bot_order` under the
stand-in primitive and secret `"sec"`. -/
def replay_req : IpnRequest :=
  { sig := some (test_hmac "sec" "rawbody")
    raw_body := "rawbody"
    payment_status := some "finished"
    order_id := some "B-XYZ789-020226" }

/-! ## Theorems -/

/-- Every character of the draw alphabet satisfies `[A-Z0-9]`. -/
lemma charset_all_upper_alnum : charset.all isUpperAlnum = true := by
  decide

lemma isUpperAlnum_of_mem_charset {c : Char} (h : c ∈ charset) :
    isUpperAlnum c = true :=
  List.all_eq_true.mp charset_all_upper_alnum c h

lemma digitChar_isDigit {n : Nat} (h : n < 10) : (digitChar n).isDigit = true := by
  interval_cases n <;> decide

lemma digitChar_mod_isDigit (n : Nat) : (digitChar (n % 10)).isDigit = true :=
  digitChar_isDigit (Nat.mod_lt _ (by norm_num))

/-- The character list underlying a generated identifier. -/
lemma generate_order_id_data (pfx : String) (draws : List Char)
    (day month year : Nat) :
    (generate_order_id pfx draws day month year).data
      = pfx.data ++ '-' :: (draws ++ '-' :: date_part day month year) := by
  simp [generate_order_id, String.data_append]

/-- C6: every generated order identifier matches
`^[BW]-[A-Z0-9]\x7b6\x7d-\d\x7b6\x7d$` — origin tag `B` or `W` (the two call
sites pass exactly these), six draws from the uppercase-letters-and-digits
alphabet, and a six-digit date segment — and the date segment is the
creation date formatted ddmmyy. -/
theorem generate_order_id_spec (pfx : String) (c1 c2 c3 c4 c5 c6 : Char)
    (day month year : Nat) (hp : pfx = "B" ∨ pfx = "W")
    (h1 : c1 ∈ charset) (h2 : c2 ∈ charset) (h3 : c3 ∈ charset)
    (h4 : c4 ∈ charset) (h5 : c5 ∈ charset) (h6 : c6 ∈ charset) :
    matches_order_id_format
      (generate_order_id pfx [c1, c2, c3, c4, c5, c6] day month year) = true
    ∧ date_segment (generate_order_id pfx [c1, c2, c3, c4, c5, c6] day month year)
        = date_part day month year := by
  have e1 := isUpperAlnum_of_mem_charset h1
  have e2 := isUpperAlnum_of_mem_charset h2
  have e3 := isUpperAlnum_of_mem_charset h3
  have e4 := isUpperAlnum_of_mem_charset h4
  have e5 := isUpperAlnum_of_mem_charset h5
  have e6 := isUpperAlnum_of_mem_charset h6
  have hdata := generate_order_id_data pfx [c1, c2, c3, c4, c5, c6] day month year
  obtain rfl | rfl := hp <;>
    refine ⟨?_, ?_⟩ <;>
      simp_all [matches_order_id_format, date_segment, date_part, pad2,
        digitChar_mod_isDigit]

/-- Witness for C6 at a concrete input: identifier `W-A2C4E6-311225`. -/
theorem generate_order_id_spec_witness :
    matches_order_id_format
      (generate_order_id "W" ['A', '2', 'C', '4', 'E', '6'] 31 12 2025) = true
    ∧ date_segment (generate_order_id "W" ['A', '2', 'C', '4', 'E', '6'] 31 12 2025)
        = date_part 31 12 2025 :=
  generate_order_id_spec "W" 'A' '2' 'C' '4' 'E' '6' 31 12 2025
    (Or.inr rfl) (by decide) (by decide) (by decide) (by decide) (by decide)
    (by decide)

/-- Mapping a guarded update over rows none of which satisfy the guard is
the identity. -/
lemma map_guard_no_hit {α : Type} (l : List α) (p : α → Bool) (g : α → α)
    (h : ∀ x ∈ l, p x = false) :
    (l.map fun x => if p x then g x else x) = l := by
  induction l with
  | nil => rfl
  | cons a l ih =>
    have ha := h a (List.mem_cons_self a l)
    have ih' := ih fun x hx => h x (List.mem_cons_of_mem a hx)
    simp [ha, ih']

/-- C1 (amended): a valid-signature IPN whose body has
`payment_status = 'finished'` and whose `order_id` matches exactly one
stored order returns 200, sets that order's status to `paid` and stamps its
paid-at timestamp regardless of the order's prior status (the UPDATE has no
`AND order_status = 'pending'` guard), leaves every other order unchanged,
and sends exactly one delivery-method-choice notification addressed to that
order's buyer identifier. -/
theorem ipn_finished_spec (hmacHex : String → String → String)
    (secret : String) (req : IpnRequest) (pre post : List Order) (o : Order)
    (now : Nat) (oid : String)
    (hsig : req.sig = some (hmacHex secret req.raw_body))
    (hps : req.payment_status = some "finished")
    (hoid : req.order_id = some oid)
    (ho : o.order_id = oid)
    (hpre : ∀ o' ∈ pre, o'.order_id ≠ oid)
    (hpost : ∀ o' ∈ post, o'.order_id ≠ oid) :
    ipn hmacHex secret req (pre ++ o :: post) now
      = .ok ⟨200, .text "OK",
          pre ++ { o with order_status := .paid, paid_at := some now } :: post,
          [⟨o.user_identifier, oid⟩]⟩ := by
  have hpre' : ∀ o' ∈ pre, (o'.order_id == oid) = false := fun o' h' =>
    beq_eq_false_iff_ne.mpr (hpre o' h')
  have hpost' : ∀ o' ∈ post, (o'.order_id == oid) = false := fun o' h' =>
    beq_eq_false_iff_ne.mpr (hpost o' h')
  have hmap_pre := map_guard_no_hit pre (fun o' => o'.order_id == oid)
    (fun o' => { o' with order_status := .paid, paid_at := some now }) hpre'
  have hmap_post := map_guard_no_hit post (fun o' => o'.order_id == oid)
    (fun o' => { o' with order_status := .paid, paid_at := some now }) hpost'
  have hfil_pre : pre.filter (fun o' => o'.order_id == oid) = [] :=
    List.filter_eq_nil_iff.mpr fun o' h' => by simp [hpre' o' h']
  simp only [ipn, validate_ipn, hmac_compare_digest, hsig, beq_self_eq_true,
    hps, hoid, List.map_append, List.map_cons, ho, List.filter_append,
    hmap_pre, hmap_post, hfil_pre, List.filter_cons, beq_self_eq_true,
    if_pos, List.nil_append, List.head?_cons]

/-- Witness for C1's amended theorem at a concrete input: a single pending
bot order, correctly signed notification, buyer identifier `777`. -/
theorem ipn_finished_spec_witness :
    ipn test_hmac "sec" replay_req ([] ++ bot_order :: []) 7
      = .ok ⟨200, .text "OK",
          [] ++ { bot_order with order_status := .paid, paid_at := some 7 } :: [],
          [⟨some "777", "B-XYZ789-020226"⟩]⟩ :=
  ipn_finished_spec test_hmac "sec" replay_req [] [] bot_order 7
    "B-XYZ789-020226" rfl rfl rfl rfl
    (fun o' h' => absurd h' (List.not_mem_nil o'))
    (fun o' h' => absurd h' (List.not_mem_nil o'))

/-- Counterexample to C1 as stated: the transition is not restricted to
prior status `pending` — a correctly signed `finished` notification for an
order in status `cancelled` still sets it to `paid`. -/
theorem ipn_from_cancelled_counterexample :
    cancelled_order.order_status = .cancelled
    ∧ ipn test_hmac "sec"
        { sig := some (test_hmac "sec" "rawbody")
          raw_body := "rawbody"
          payment_status := some "finished"
          order_id := some "B-ABC123-010126" }
        [cancelled_order] 7
      = .ok ⟨200, .text "OK",
          [{ cancelled_order with order_status := .paid, paid_at := some 7 }],
          [⟨some "42", "B-ABC123-010126"⟩]⟩ :=
  ⟨rfl, rfl⟩

/-- C2: the /ipn handler is not idempotent.  Replaying the identical
correctly-signed `finished` notification for the same order sends the buyer
a second delivery-method-choice notification and re-stamps the paid-at
timestamp (the second `CURRENT_TIMESTAMP` differs from the first), so the
order row after the replay differs from the row after the first
application. -/
theorem ipn_replay_sends_second_notification :
    ipn test_hmac "sec" replay_req [bot_order] 7
      = .ok ⟨200, .text "OK", [bot_order_paid 7],
          [⟨some "777", "B-XYZ789-020226"⟩]⟩
    ∧ ipn test_hmac "sec" replay_req [bot_order_paid 7] 8
      = .ok ⟨200, .text "OK", [bot_order_paid 8],
          [⟨some "777", "B-XYZ789-020226"⟩]⟩
    ∧ bot_order_paid 8 ≠ bot_order_paid 7 :=
  ⟨rfl, rfl, by decide⟩

/-- C3: an /ipn request whose signature header is present but differs from
the hex HMAC-SHA512 of the raw body returns 400 `Invalid signature` with
the orders table unchanged and no notification sent, whatever the body
contains; and the check is performed through the `hmac.compare_digest`
constant-time primitive. -/
theorem ipn_invalid_signature_spec (hmacHex : String → String → String)
    (secret s : String) (req : IpnRequest) (orders : List Order) (now : Nat)
    (hsig : req.sig = some s)
    (hne : s ≠ hmacHex secret req.raw_body) :
    ipn hmacHex secret req orders now
      = .ok ⟨400, .text "Invalid signature", orders, []⟩
    ∧ validate_ipn hmacHex secret req.sig req.raw_body
        = hmac_compare_digest req.sig (hmacHex secret req.raw_body) := by
  have hbeq : (s == hmacHex secret req.raw_body) = false :=
    beq_eq_false_iff_ne.mpr hne
  exact ⟨by simp only [ipn, validate_ipn, hmac_compare_digest, hsig, hbeq],
    rfl⟩

/-- Witness for C3 at a concrete input: header `bad` against expected
digest `sec/rawbody`. -/
theorem ipn_invalid_signature_spec_witness :
    ipn test_hmac "sec"
        { sig := some "bad"
          raw_body := "rawbody"
          payment_status := some "finished"
          order_id := some "B-XYZ789-020226" }
        [bot_order] 7
      = .ok ⟨400, .text "Invalid signature", [bot_order], []⟩
    ∧ validate_ipn test_hmac "sec" (some "bad") "rawbody"
        = hmac_compare_digest (some "bad") (test_hmac "sec" "rawbody") :=
  ipn_invalid_signature_spec test_hmac "sec" "bad"
    { sig := some "bad"
      raw_body := "rawbody"
      payment_status := some "finished"
      order_id := some "B-XYZ789-020226" }
    [bot_order] 7 rfl (by decide)

/-- C9: a POST /ipn request with no `x-nowpayments-sig` header makes
`validate_ipn` pass `None` to `hmac.compare_digest`, which raises
`TypeError`; the route has no exception handler, so the handler raises
rather than returning the 400 invalid-signature response — the entry point
is not total over well-formed HTTP requests. -/
theorem ipn_missing_sig_raises (hmacHex : String → String → String)
    (secret : String) (req : IpnRequest) (orders : List Order) (now : Nat)
    (h : req.sig = none) :
    ipn hmacHex secret req orders now = .error "TypeError" := by
  simp only [ipn, validate_ipn, hmac_compare_digest, h]

/-- Witness for C9 at a concrete input: a `finished` body with no signature
header. -/
theorem ipn_missing_sig_raises_witness :
    ipn test_hmac "sec"
        { sig := none
          raw_body := "rawbody"
          payment_status := some "finished"
          order_id := some "B-XYZ789-020226" }
        [bot_order] 7
      = .error "TypeError" :=
  ipn_missing_sig_raises test_hmac "sec"
    { sig := none
      raw_body := "rawbody"
      payment_status := some "finished"
      order_id := some "B-XYZ789-020226" }
    [bot_order] 7 rfl

/-- C4: `/cancel-order/<id>` returns 200 `{'success': True}` exactly when an
order with that id exists in status `pending`; in that case (with the id
unique among pending rows) the pending order becomes `cancelled` and every
other row is untouched; when no pending order with the id exists — absent,
already `paid`, or already `cancelled` — the handler returns 404 and the
orders table is unchanged. -/
theorem cancel_order_spec (oid : String) (orders : List Order) :
    ((cancel_order oid orders).1.1 = 200
      ↔ ∃ o ∈ orders, o.order_id = oid ∧ o.order_status = .pending)
    ∧ (∀ pre post o, orders = pre ++ o :: post →
        o.order_id = oid → o.order_status = .pending →
        (∀ o' ∈ pre, ¬(o'.order_id = oid ∧ o'.order_status = .pending)) →
        (∀ o' ∈ post, ¬(o'.order_id = oid ∧ o'.order_status = .pending)) →
        cancel_order oid orders
          = ((200, .jsonSuccess),
             pre ++ { o with order_status := .cancelled } :: post))
    ∧ ((¬∃ o ∈ orders, o.order_id = oid ∧ o.order_status = .pending) →
        cancel_order oid orders
          = ((404, .jsonError "Order not found or not cancellable"), orders)) := by
  have hmem : ∀ o : Order,
      (o.order_id == oid && o.order_status == OrderStatus.pending) = true
        ↔ o.order_id = oid ∧ o.order_status = .pending := by
    intro o
    simp [Bool.and_eq_true]
  refine ⟨?_, ?_, ?_⟩
  · by_cases hex : ∃ o ∈ orders, o.order_id = oid ∧ o.order_status = .pending
    · obtain ⟨o, ho, hprop⟩ := hex
      have hfo : o ∈ orders.filter fun o' =>
          o'.order_id == oid && o'.order_status == OrderStatus.pending :=
        List.mem_filter.mpr ⟨ho, (hmem o).mpr hprop⟩
      have hpos := List.length_pos.mpr (List.ne_nil_of_mem hfo)
      simp only [cancel_order, if_pos hpos]
      exact iff_of_true trivial ⟨o, ho, hprop⟩
    · have hnil : (orders.filter fun o' =>
          o'.order_id == oid && o'.order_status == OrderStatus.pending) = [] :=
        List.filter_eq_nil_iff.mpr fun o' ho' hp' =>
          hex ⟨o', ho', (hmem o').mp hp'⟩
      simp only [cancel_order, hnil]
      simp only [List.length_nil, lt_self_iff_false, if_false]
      exact iff_of_false (by norm_num) hex
  · rintro pre post o rfl hid hst hpre hpost
    have hpre' : ∀ o' ∈ pre, (o'.order_id == oid
        && o'.order_status == OrderStatus.pending) = false := fun o' h' =>
      Bool.eq_false_iff.mpr fun hp' => hpre o' h' ((hmem o').mp hp')
    have hpost' : ∀ o' ∈ post, (o'.order_id == oid
        && o'.order_status == OrderStatus.pending) = false := fun o' h' =>
      Bool.eq_false_iff.mpr fun hp' => hpost o' h' ((hmem o').mp hp')
    have hof : (o.order_id == oid && o.order_status == OrderStatus.pending)
        = true := (hmem o).mpr ⟨hid, hst⟩
    have hmap_pre := map_guard_no_hit pre
      (fun o' => o'.order_id == oid && o'.order_status == OrderStatus.pending)
      (fun o' => { o' with order_status := .cancelled }) hpre'
    have hmap_post := map_guard_no_hit post
      (fun o' => o'.order_id == oid && o'.order_status == OrderStatus.pending)
      (fun o' => { o' with order_status := .cancelled }) hpost'
    have hfil_pre : (pre.filter fun o' => o'.order_id == oid
        && o'.order_status == OrderStatus.pending) = [] :=
      List.filter_eq_nil_iff.mpr fun o' h' => by simp [hpre' o' h']
    have hpos : 0 < ((pre ++ o :: post).filter fun o' => o'.order_id == oid
        && o'.order_status == OrderStatus.pending).length := by
      have : o ∈ (pre ++ o :: post).filter fun o' => o'.order_id == oid
          && o'.order_status == OrderStatus.pending :=
        List.mem_filter.mpr ⟨by simp, hof⟩
      exact List.length_pos.mpr (List.ne_nil_of_mem this)
    simp only [cancel_order, if_pos hpos, List.map_append, List.map_cons,
      hmap_pre, hmap_post, hof, if_pos]
  · intro hex
    have hnil : (orders.filter fun o' =>
        o'.order_id == oid && o'.order_status == OrderStatus.pending) = [] :=
      List.filter_eq_nil_iff.mpr fun o' ho' hp' =>
        hex ⟨o', ho', (hmem o').mp hp'⟩
    simp only [cancel_order, hnil, List.length_nil, lt_self_iff_false,
      if_false]

/-- Witness for C4 at a concrete input: cancelling the pending `bot_order`
succeeds and marks it cancelled. -/
theorem cancel_order_spec_witness :
    ((cancel_order "B-XYZ789-020226" [bot_order]).1.1 = 200
      ↔ ∃ o ∈ [bot_order], o.order_id = "B-XYZ789-020226"
          ∧ o.order_status = .pending)
    ∧ cancel_order "B-XYZ789-020226" [bot_order]
        = ((200, .jsonSuccess),
           [] ++ { bot_order with order_status := .cancelled } :: []) :=
  ⟨(cancel_order_spec "B-XYZ789-020226" [bot_order]).1,
   (cancel_order_spec "B-XYZ789-020226" [bot_order]).2.1 [] [] bot_order
     rfl rfl rfl
     (fun o' h' => absurd h' (List.not_mem_nil o'))
     (fun o' h' => absurd h' (List.not_mem_nil o'))⟩

/-- C5: POST /create-order with a `product_id` matching no product returns
404 `Product not found` and leaves the orders table unchanged — no order row
is inserted — whatever the invoice call would have returned. -/
theorem create_order_unknown_product_spec (pid : Nat) (oid : String)
    (invoice_url : Option String) (products : List Product)
    (orders : List Order) (h : ∀ p ∈ products, p.id ≠ pid) :
    create_order (some (some pid)) oid invoice_url products orders
      = ((404, .jsonError "Product not found"), orders) := by
  have hnil : (products.filter fun p => p.id == pid) = [] :=
    List.filter_eq_nil_iff.mpr fun p hp => by
      simp [beq_eq_false_iff_ne.mpr (h p hp)]
  simp only [create_order, hnil, List.head?_nil]

/-- Witness for C5 at a concrete input: product id 2 against a catalog
holding only product 1. -/
theorem create_order_unknown_product_spec_witness :
    create_order (some (some 2)) "W-A2C4E6-311225" (some "https://pay")
        [{ id := 1, name := "Widget", price := 10, description := "d",
           image_url := "" }] []
      = ((404, .jsonError "Product not found"), []) :=
  create_order_unknown_product_spec 2 "W-A2C4E6-311225" (some "https://pay")
    [{ id := 1, name := "Widget", price := 10, description := "d",
       image_url := "" }] []
    (by decide)

/-- C10: /create-order INSERTs and commits the order row before the external
invoice call, so when the invoice call fails (no `invoice_url` in the
response) the handler returns 500 `Failed to create invoice` while the new
order row is already in storage, in status `pending`. -/
theorem create_order_invoice_failure_spec (pid : Nat) (oid : String)
    (products : List Product) (orders : List Order) (p : Product)
    (hp : (products.filter fun q => q.id == pid).head? = some p) :
    create_order (some (some pid)) oid none products orders
      = ((500, .jsonError "Failed to create invoice"),
         orders ++ [new_web_order pid p.price oid])
    ∧ (new_web_order pid p.price oid).order_status = .pending := by
  exact ⟨by simp only [create_order, hp], rfl⟩

/-- Witness for C10 at a concrete input: known product 1, invoice call
fails. -/
theorem create_order_invoice_failure_spec_witness :
    create_order (some (some 1)) "W-A2C4E6-311225" none
        [{ id := 1, name := "Widget", price := 10, description := "d",
           image_url := "" }] []
      = ((500, .jsonError "Failed to create invoice"),
         [] ++ [new_web_order 1 10 "W-A2C4E6-311225"])
    ∧ (new_web_order 1 10 "W-A2C4E6-311225").order_status = .pending :=
  create_order_invoice_failure_spec 1 "W-A2C4E6-311225"
    [{ id := 1, name := "Widget", price := 10, description := "d",
       image_url := "" }] []
    { id := 1, name := "Widget", price := 10, description := "d",
      image_url := "" }
    rfl

/-- Counterexample to C7 as stated: POST /submit-delivery with a required
field absent does not return a 4xx status — the `KeyError` is caught by the
blanket handler, which returns 500. -/
theorem submit_delivery_missing_field_counterexample :
    submit_delivery (some "W-A2C4E6-311225") none (some "addr")
      = ((500, .jsonError "Internal server error"), [])
    ∧ is_4xx 500 = false := by
  decide

/-- C7 (amended): POST /create-order with a missing or empty JSON body, or
one lacking `product_id`, returns 400 (a 4xx status) with a JSON error
body; POST /submit-delivery with any of `order_id`, `method`, `details`
absent returns 500 with a JSON error body — the missing key raises
`KeyError`, which the blanket exception handler converts to a 500, not a
4xx — and relays no operator message. -/
theorem missing_field_responses_spec (oid : String)
    (invoice_url : Option String) (products : List Product)
    (orders : List Order) (o m d : Option String)
    (hmiss : o = none ∨ m = none ∨ d = none) :
    create_order none oid invoice_url products orders
      = ((400, .jsonError "Missing product_id"), orders)
    ∧ create_order (some none) oid invoice_url products orders
      = ((400, .jsonError "Missing product_id"), orders)
    ∧ is_4xx 400 = true
    ∧ submit_delivery o m d
      = ((500, .jsonError "Internal server error"), []) := by
  refine ⟨rfl, rfl, rfl, ?_⟩
  rcases o with _ | vo <;> rcases m with _ | vm <;> rcases d with _ | vd <;>
    simp_all [submit_delivery]

/-- Witness for C7's amended theorem at a concrete input: `method`
absent. -/
theorem missing_field_responses_spec_witness :
    create_order none "W-A2C4E6-311225" none [] []
      = ((400, .jsonError "Missing product_id"), [])
    ∧ create_order (some none) "W-A2C4E6-311225" none [] []
      = ((400, .jsonError "Missing product_id"), [])
    ∧ is_4xx 400 = true
    ∧ submit_delivery (some "W-A2C4E6-311225") none (some "addr")
      = ((500, .jsonError "Internal server error"), []) :=
  missing_field_responses_spec "W-A2C4E6-311225" none [] []
    (some "W-A2C4E6-311225") none (some "addr") (Or.inr (Or.inl rfl))

/-- Counterexample to C8 as stated: a submission with non-empty name,
non-empty description and price exactly 0 is rejected, not inserted —
WTForms `DataRequired()` treats the falsy float `0.0` as missing, so the
`NumberRange(min=0)` lower bound is unreachable at 0. -/
theorem add_product_price_zero_counterexample :
    product_form_validate
        { name := some "Widget", price := some 0,
          description := some "A fine widget", image_url := some "" } = false
    ∧ add_product
        { name := some "Widget", price := some 0,
          description := some "A fine widget", image_url := some "" } 1 []
      = (false, []) := by
  decide

/-- C8 (amended): the admin add-product form accepts exactly those
submissions having a present, non-whitespace name, a present,
non-whitespace description, and a present price strictly greater than 0
(price exactly 0 is rejected by the required-field validator, which treats
the falsy float 0.0 as absent); every accepted submission inserts the
product and every rejected one inserts nothing. -/
theorem add_product_spec (s : ProductSubmission) (new_id : Nat)
    (products : List Product) :
    (product_form_validate s = true
      ↔ (∃ n, s.name = some n ∧ strip n ≠ "")
        ∧ (∃ x : Rat, s.price = some x ∧ 0 < x)
        ∧ (∃ dsc, s.description = some dsc ∧ strip dsc ≠ ""))
    ∧ (product_form_validate s = true →
        add_product s new_id products
          = (true, products ++ [product_of_submission new_id s]))
    ∧ (product_form_validate s = false →
        add_product s new_id products = (false, products)) := by
  refine ⟨?_, fun h => by simp [add_product, h],
    fun h => by simp [add_product, h]⟩
  have hx : ∀ x : Rat, (¬x = 0 ∧ 0 ≤ x) ↔ 0 < x := fun x =>
    ⟨fun h => lt_of_le_of_ne h.2 (Ne.symm h.1),
     fun h => ⟨ne_of_gt h, le_of_lt h⟩⟩
  obtain ⟨n, x, dsc, img⟩ := s
  rcases n with _ | n <;> rcases x with _ | x <;> rcases dsc with _ | dsc <;>
    simp [product_form_validate, data_required_str, data_required_float,
      number_range_min0, hx, and_assoc]

/-- Witness for C8's amended theorem at a concrete input: a valid
submission with price 10 is accepted and inserted. -/
theorem add_product_spec_witness :
    product_form_validate
        { name := some "Widget", price := some 10,
          description := some "A fine widget", image_url := some "" } = true
    ∧ add_product
        { name := some "Widget", price := some 10,
          description := some "A fine widget", image_url := some "" } 1 []
      = (true, [] ++ [product_of_submission 1
          { name := some "Widget", price := some 10,
            description := some "A fine widget", image_url := some "" }]) :=
  ⟨by decide,
   (add_product_spec
      { name := some "Widget", price := some 10,
        description := some "A fine widget", image_url := some "" } 1
      []).2.1 (by decide)⟩

end VaultShop
